import Mathlib

/-!
Shallow embedding of `src/app.py`, a Flask-based asynchronous virtual try-on
job broker.  Python dictionaries (the job records stored in the global `TASKS`
mapping, and `TASKS` itself) are embedded as association lists; the external
service, which the program only observes through HTTP responses, is embedded
as an oracle (`RemoteEnv`) recording what each remote call would return.
Machine-level effects (sleeping, printing) are irrelevant to the claims and
are dropped; the number of poll iterations is recorded explicitly.
-/

set_option autoImplicit false

namespace VirtualTryOn

/-- A Python `dict` with string keys, embedded as an association list
(first binding of a key wins, as `dictSet` keeps keys unique). -/
def lookupKey {α : Type} : List (String × α) → String → Option α
  | [], _ => none
  | (k', v) :: rest, k => if k' = k then some v else lookupKey rest k

/-- `d[k] = v` on a Python dict: replace the binding in place if the key
exists, otherwise append it (Python dicts keep insertion order). -/
def setKey {α : Type} : List (String × α) → String → α → List (String × α)
  | [], k, v => [(k, v)]
  | (k', v') :: rest, k, v =>
    if k' = k then (k, v) :: rest else (k', v') :: setKey rest k v

/-- A job record: the Python dict stored at `TASKS[job_id]`. -/
abbrev Dict := List (String × String)

/-- `d.update(kvs)` on a Python dict. -/
def dictUpdate (d : Dict) (kvs : List (String × String)) : Dict :=
  kvs.foldl (fun d kv => setKey d kv.1 kv.2) d

/-- The global `TASKS` mapping from job id to job record. -/
abbrev Store := List (String × Dict)

/-- Python `s.split(",")` on the character list of `s`: splitting an empty
string gives `[""]`, and every comma starts a new group. -/
def splitComma : List Char → List (List Char)
  | [] => [[]]
  | c :: rest =>
    let r := splitComma rest
    if c = ',' then [] :: r
    else
      match r with
      | [] => [[c]]
      | g :: gs => (c :: g) :: gs

/-- Module-level startup of `app.py`: read `KLING_KEYS` from the environment
(`os.environ.get("KLING_KEYS", "")`), raise `ValueError` when it is falsy,
otherwise build `API_KEYS = api_keys_env.split(",")`. -/
def startupKeys (env : Option String) : Except String (List String) :=
  let api_keys_env := env.getD ""
  if api_keys_env = "" then
    .error "KLING_KEYS environment variable not set!"
  else
    .ok ((splitComma api_keys_env.data).map List.asString)

/-- The state of `key_cycle = itertools.cycle(API_KEYS)`: the fixed pool and
a monotonically advancing cursor. -/
structure KeyCycle where
  keys : List String
  cursor : Nat
  deriving Repr, DecidableEq

/-- `get_next_api_key()`: one `next(key_cycle)` call.  Returns `none` exactly
when the pool is empty (`itertools.cycle` of an empty list is exhausted). -/
def get_next_api_key (c : KeyCycle) : Option String × KeyCycle :=
  (c.keys.get? (c.cursor % c.keys.length), { c with cursor := c.cursor + 1 })

/-- The outputs of `n` successive `get_next_api_key()` calls starting from
cycle state `c`. -/
def keyOutputs (c : KeyCycle) : Nat → List (Option String)
  | 0 => []
  | n + 1 =>
    let (o, c') := get_next_api_key c
    o :: keyOutputs c' n

/-- `download_image(url, save_path)`: fetch `url` and write the body to
`save_path`, returning `True`; on any transport error return `False` and
write nothing.  `ok` is the oracle for whether `requests.get` succeeds; the
file system is a mapping from path to content (the fetched bytes are stood
in for by the url they came from). -/
def download_image (ok : Bool) (url save_path : String)
    (fs : List (String × String)) : Bool × List (String × String) :=
  if ok then (true, setKey fs save_path url) else (false, fs)

/-- The statuses `["pending", "running", "processing"]` that keep the poll
loop of `process_try_on` running. -/
def nonTerminalStatus (s : String) : Bool :=
  s = "pending" || s = "running" || s = "processing"

/-- One remote poll observation: either the transport/parse step raised
(`check_res.raise_for_status()` / missing JSON field), or it produced a
status string. -/
abbrev PollResponse := Except String String

/-- The poll loop of `process_try_on` (lines 73-80): starting from the local
`status = "pending"`, repeatedly sleep and query while the status is
non-terminal.  `polls` is the oracle sequence of responses the remote
service would give to successive queries.  Returns the response that ended
the loop together with the number of queries made, or `none` when every
response in the trace is a non-terminal status (the loop has not terminated
within the observed trace; the code has no iteration bound). -/
def poll_loop : List PollResponse → Option (PollResponse × Nat)
  | [] => none
  | .error e :: _ => some (.error e, 1)
  | .ok s :: rest =>
    if nonTerminalStatus s then
      match poll_loop rest with
      | none => none
      | some (r, n) => some (r, n + 1)
    else
      some (.ok s, 1)

/-- The oracle for one job's interaction with the remote service. -/
structure RemoteEnv where
  /-- Result of the submission `POST` (lines 67-70): an error message when
  `res.raise_for_status()` or the `['data']['task_id']` access raises,
  otherwise the external task id. -/
  submit : Except String String
  /-- Responses to the successive status queries of the poll loop. -/
  polls : List PollResponse
  /-- Result of `check_json['data']['output']['works'][0]['image']['resource']`
  (line 84) on the final poll body: an error message when a field is missing,
  otherwise the artifact url. -/
  output : Except String String
  /-- Whether `requests.get` inside `download_image` succeeds. -/
  fetchOk : Bool

/-- Outcome of one background execution of `process_try_on`. -/
structure ProcResult where
  /-- The final value of `TASKS[job_id]`. -/
  record : Dict
  /-- The path of the file written by `download_image`, if any. -/
  written : Option String
  /-- How many status queries the poll loop made. -/
  polls_made : Nat
  deriving Repr, DecidableEq

/-- `process_try_on(job_id, model_img, dress_img)` (lines 49-100), acting on
the record `r` currently stored at `TASKS[job_id]`.  Returns `none` when the
poll loop never terminates within the observed trace; otherwise the final
record, the written file (if any) and the poll count.  Every exception of
the `try` block is caught at line 98 and converted to a
`{"status": "failed", "error": str(e)}` update. -/
def process_try_on (job_id : String) (env : RemoteEnv) (r : Dict) :
    Option ProcResult :=
  let r1 := setKey r "status" "processing"
  match env.submit with
  | .error e =>
    some ⟨dictUpdate r1 [("status", "failed"), ("error", e)], none, 0⟩
  | .ok _external_task_id =>
    match poll_loop env.polls with
    | none => none
    | some (.error e, n) =>
      some ⟨dictUpdate r1 [("status", "failed"), ("error", e)], none, n⟩
    | some (.ok status, n) =>
      if status = "completed" then
        match env.output with
        | .error e =>
          some ⟨dictUpdate r1 [("status", "failed"), ("error", e)], none, n⟩
        | .ok img_url =>
          let local_filename := "static/" ++ job_id ++ ".png"
          match download_image env.fetchOk img_url local_filename [] with
          | (true, _) =>
            some ⟨dictUpdate r1
              [("status", "completed"),
               ("resultText", "Image successfully generated and saved."),
               ("image_url", "/static/" ++ job_id ++ ".png")],
              some local_filename, n⟩
          | (false, _) =>
            some ⟨dictUpdate r1
              [("status", "failed"),
               ("error", "Failed to download the final image.")],
              none, n⟩
      else
        some ⟨dictUpdate r1
          [("status", "failed"), ("error", "Task failed with status: " ++ status)],
          none, n⟩

/-- Every value `TASKS[job_id]` takes over one job's lifecycle: the record
the submission endpoint creates, the `"processing"` record the background
thread writes before submitting, and (when the poll loop terminates) the
terminal record. -/
def job_states (job_id : String) (env : RemoteEnv) : List Dict :=
  let init : Dict := [("status", "pending")]
  let r1 := setKey init "status" "processing"
  init :: r1 ::
    (match process_try_on job_id env init with
     | none => []
     | some pr => [pr.record])

/-- Result of one `POST /start-tryon` request. -/
structure StartResult where
  httpStatus : Nat
  body : Dict
  store : Store
  /-- The arguments `(job_id, model_img, dress_img)` handed to the background
  thread running `process_try_on`, when one was spawned. -/
  spawned : Option (String × String × String)
  deriving Repr, DecidableEq

/-- `start_tryon_api` (lines 109-137): `model_img` and `dress_img` are the
results of `data.get(...)` on the request body; `fresh_id` is the
`str(uuid.uuid4())` value minted for this request.  A falsy field (absent or
empty string) is rejected with HTTP 400; otherwise the record
`{"status": "pending"}` is stored under the fresh id, the background thread
is spawned, and HTTP 202 with the job id is returned. -/
def start_tryon_api (store : Store) (model_img dress_img : Option String)
    (fresh_id : String) : StartResult :=
  match model_img, dress_img with
  | some m, some d =>
    if m = "" || d = "" then
      ⟨400, [("error", "model_img and dress_img are required")], store, none⟩
    else
      ⟨202, [("jobId", fresh_id)],
        setKey store fresh_id [("status", "pending")],
        some (fresh_id, m, d)⟩
  | _, _ =>
    ⟨400, [("error", "model_img and dress_img are required")], store, none⟩

/-- `get_status_api` (lines 139-148): `TASKS.get(job_id)` followed by the
Python truthiness test `if not task` (which also fires on an empty dict),
then `jsonify(task)`. -/
def get_status_api (store : Store) (job_id : String) : Nat × Dict :=
  match lookupKey store job_id with
  | none => (404, [("error", "Job ID not found")])
  | some task =>
    if task = [] then (404, [("error", "Job ID not found")])
    else (200, task)

/-- The record shows an in-progress status. -/
def inProgress (r : Dict) : Prop :=
  lookupKey r "status" = some "pending" ∨ lookupKey r "status" = some "processing"

/-- The record is completed and carries its required result reference
(the `image_url` field of the code, `resultReference` in the spec). -/
def completedOk (r : Dict) : Prop :=
  lookupKey r "status" = some "completed" ∧ (lookupKey r "image_url").isSome = true

/-- The record is failed and carries its required error string. -/
def failedOk (r : Dict) : Prop :=
  lookupKey r "status" = some "failed" ∧ (lookupKey r "error").isSome = true

/-- Exactly one of three alternatives holds. -/
def exactlyOne (a b c : Prop) : Prop :=
  (a ∧ ¬b ∧ ¬c) ∨ (¬a ∧ b ∧ ¬c) ∨ (¬a ∧ ¬b ∧ c)

/-- A concrete remote interaction whose submission succeeds with external
task id `"ext-task-42"` and whose job runs to successful completion. -/
def c5Env : RemoteEnv :=
  { submit := .ok "ext-task-42"
    polls := [.ok "completed"]
    output := .ok "http://remote/img.png"
    fetchOk := true }

/-! ## Helper lemmas -/

theorem lookupKey_setKey_self {α : Type} (l : List (String × α)) (k : String) (v : α) :
    lookupKey (setKey l k v) k = some v := by
  induction l with
  | nil => simp [setKey, lookupKey]
  | cons kv rest ih =>
    obtain ⟨k', v'⟩ := kv
    by_cases h : k' = k
    · simp [setKey, h, lookupKey]
    · simp [setKey, h, lookupKey, ih]

/-! ## Claims -/

/-- C7: a submission with `model_img` or `dress_img` missing from the body is
answered with HTTP 400 and the descriptive error message, the job store is
unchanged (no record is created), and no background job is spawned. -/
theorem submission_missing_field_rejected (store : Store)
    (model_img dress_img : Option String) (fresh_id : String)
    (h : model_img = none ∨ dress_img = none) :
    (start_tryon_api store model_img dress_img fresh_id).httpStatus = 400 ∧
    (start_tryon_api store model_img dress_img fresh_id).body =
      [("error", "model_img and dress_img are required")] ∧
    (start_tryon_api store model_img dress_img fresh_id).store = store ∧
    (start_tryon_api store model_img dress_img fresh_id).spawned = none := by
  rcases h with h | h
  · subst h; cases dress_img <;> simp [start_tryon_api]
  · subst h; cases model_img <;> simp [start_tryon_api]

theorem submission_missing_field_rejected_witness :
    (start_tryon_api [] none (some "d.jpg") "job-1").httpStatus = 400 ∧
    (start_tryon_api [] none (some "d.jpg") "job-1").body =
      [("error", "model_img and dress_img are required")] ∧
    (start_tryon_api [] none (some "d.jpg") "job-1").store = [] ∧
    (start_tryon_api [] none (some "d.jpg") "job-1").spawned = none :=
  submission_missing_field_rejected [] none (some "d.jpg") "job-1" (Or.inl rfl)

/-- C10: a submission in which `model_img` or `dress_img` is present but the
empty string is rejected exactly like a missing field (the code tests
truthiness, `if not model_img or not dress_img`), and no record is created. -/
theorem submission_empty_field_rejected (store : Store)
    (model_img dress_img : Option String) (fresh_id : String)
    (h : model_img = some "" ∨ dress_img = some "") :
    (start_tryon_api store model_img dress_img fresh_id).httpStatus = 400 ∧
    (start_tryon_api store model_img dress_img fresh_id).body =
      [("error", "model_img and dress_img are required")] ∧
    (start_tryon_api store model_img dress_img fresh_id).store = store ∧
    (start_tryon_api store model_img dress_img fresh_id).spawned = none := by
  rcases h with h | h
  · subst h; cases dress_img <;> simp [start_tryon_api]
  · subst h; cases model_img <;> simp [start_tryon_api]

theorem submission_empty_field_rejected_witness :
    (start_tryon_api [] (some "") (some "d.jpg") "job-1").httpStatus = 400 ∧
    (start_tryon_api [] (some "") (some "d.jpg") "job-1").body =
      [("error", "model_img and dress_img are required")] ∧
    (start_tryon_api [] (some "") (some "d.jpg") "job-1").store = [] ∧
    (start_tryon_api [] (some "") (some "d.jpg") "job-1").spawned = none :=
  submission_empty_field_rejected [] (some "") (some "d.jpg") "job-1" (Or.inl rfl)

/-- C8: a status query for an identifier absent from the store returns
HTTP 404 with body `{"error": "Job ID not found"}`, whatever else the store
contains; a query for a present identifier whose record is non-empty (every
record the program ever stores contains at least `"status"`) returns the
record as-is with HTTP 200. -/
theorem status_query_semantics (store : Store) (job_id : String) :
    (lookupKey store job_id = none →
      get_status_api store job_id = (404, [("error", "Job ID not found")])) ∧
    (∀ task, lookupKey store job_id = some task → task ≠ [] →
      get_status_api store job_id = (200, task)) := by
  refine ⟨fun h => ?_, fun task h hne => ?_⟩
  · simp [get_status_api, h]
  · simp [get_status_api, h, hne]

theorem status_query_semantics_witness :
    get_status_api [("job-a", [("status", "pending")])] "job-b" =
      (404, [("error", "Job ID not found")]) ∧
    get_status_api [("job-a", [("status", "pending")])] "job-a" =
      (200, [("status", "pending")]) :=
  ⟨(status_query_semantics [("job-a", [("status", "pending")])] "job-b").1 (by decide),
   (status_query_semantics [("job-a", [("status", "pending")])] "job-a").2
     [("status", "pending")] (by decide) (by decide)⟩

/-- C3: a submission with both image fields present (and truthy) is answered
with HTTP 202 and the fresh job id; the record `{"status": "pending"}` is
written to the store synchronously, as part of computing the response
(`start_tryon_api` takes no `RemoteEnv`: the handler performs no remote
interaction); and an immediate status query for that id returns HTTP 200
with a record whose status is `"pending"` or `"processing"`. -/
theorem submission_accepted (store : Store) (m d fresh_id : String)
    (hm : m ≠ "") (hd : d ≠ "") :
    (start_tryon_api store (some m) (some d) fresh_id).httpStatus = 202 ∧
    (start_tryon_api store (some m) (some d) fresh_id).body = [("jobId", fresh_id)] ∧
    lookupKey (start_tryon_api store (some m) (some d) fresh_id).store fresh_id =
      some [("status", "pending")] ∧
    (start_tryon_api store (some m) (some d) fresh_id).spawned =
      some (fresh_id, m, d) ∧
    (get_status_api (start_tryon_api store (some m) (some d) fresh_id).store
        fresh_id).1 = 200 ∧
    (lookupKey (get_status_api (start_tryon_api store (some m) (some d) fresh_id).store
        fresh_id).2 "status" = some "pending" ∨
     lookupKey (get_status_api (start_tryon_api store (some m) (some d) fresh_id).store
        fresh_id).2 "status" = some "processing") := by
  have hs : start_tryon_api store (some m) (some d) fresh_id =
      ⟨202, [("jobId", fresh_id)], setKey store fresh_id [("status", "pending")],
        some (fresh_id, m, d)⟩ := by
    simp [start_tryon_api, hm, hd]
  have hl : lookupKey (setKey store fresh_id [("status", "pending")]) fresh_id =
      some [("status", "pending")] := lookupKey_setKey_self store fresh_id _
  rw [hs]
  refine ⟨rfl, rfl, hl, rfl, ?_, ?_⟩
  · simp [get_status_api, hl]
  · left; simp [get_status_api, hl, lookupKey]

theorem submission_accepted_witness :
    (start_tryon_api [] (some "m.jpg") (some "d.jpg") "job-1").httpStatus = 202 ∧
    (start_tryon_api [] (some "m.jpg") (some "d.jpg") "job-1").body =
      [("jobId", "job-1")] ∧
    lookupKey (start_tryon_api [] (some "m.jpg") (some "d.jpg") "job-1").store
      "job-1" = some [("status", "pending")] ∧
    (start_tryon_api [] (some "m.jpg") (some "d.jpg") "job-1").spawned =
      some ("job-1", "m.jpg", "d.jpg") ∧
    (get_status_api (start_tryon_api [] (some "m.jpg") (some "d.jpg") "job-1").store
        "job-1").1 = 200 ∧
    (lookupKey (get_status_api
        (start_tryon_api [] (some "m.jpg") (some "d.jpg") "job-1").store
        "job-1").2 "status" = some "pending" ∨
     lookupKey (get_status_api
        (start_tryon_api [] (some "m.jpg") (some "d.jpg") "job-1").store
        "job-1").2 "status" = some "processing") :=
  submission_accepted [] "m.jpg" "d.jpg" "job-1" (by decide) (by decide)

theorem count_some_map (x : String) (l : List String) :
    (l.map some).count (some x) = l.count x := by
  induction l with
  | nil => rfl
  | cons a l ih => simp [List.count_cons, ih]

theorem count_eq_one_of_nodup_mem (l : List String) (x : String)
    (hnd : l.Nodup) (hx : x ∈ l) : l.count x = 1 := by
  induction l with
  | nil => cases hx
  | cons a l ih =>
    rw [List.nodup_cons] at hnd
    rw [List.count_cons]
    rcases List.mem_cons.mp hx with rfl | hmem
    · rw [List.count_eq_zero.mpr hnd.1]
      simp
    · rw [ih hnd.2 hmem]
      have hne : ¬(a = x) := fun h => hnd.1 (h ▸ hmem)
      simp [hne]

theorem keyOutputs_eq_map_range (keys : List String) :
    ∀ (m c : Nat), keyOutputs ⟨keys, c⟩ m =
      (List.range m).map (fun j => keys.get? ((c + j) % keys.length))
  | 0, _ => by simp [keyOutputs]
  | m + 1, c => by
    have ih := keyOutputs_eq_map_range keys m (c + 1)
    rw [List.range_succ_eq_map]
    simp only [keyOutputs, get_next_api_key, ih, List.map_cons, List.map_map,
      Nat.add_zero]
    refine congrArg₂ _ rfl ?_
    apply List.map_congr_left
    intro j _
    have h : c + 1 + j = c + (j + 1) := by omega
    simp only [Function.comp, Nat.succ_eq_add_one, h]

theorem keyOutputs_add (keys : List String) (a b c : Nat) :
    keyOutputs ⟨keys, c⟩ (a + b) =
      keyOutputs ⟨keys, c⟩ a ++ keyOutputs ⟨keys, c + a⟩ b := by
  induction a generalizing c with
  | zero => simp [keyOutputs]
  | succ a ih =>
    have h1 : a + 1 + b = (a + b) + 1 := by omega
    have h2 : c + (a + 1) = c + 1 + a := by omega
    rw [h1, h2]
    simp only [keyOutputs, get_next_api_key, List.cons_append]
    rw [ih (c + 1)]

theorem keyOutputs_shift_cycle (keys : List String) (c m : Nat) :
    keyOutputs ⟨keys, c + keys.length⟩ m = keyOutputs ⟨keys, c⟩ m := by
  rw [keyOutputs_eq_map_range, keyOutputs_eq_map_range]
  apply List.map_congr_left
  intro j _
  have h : c + keys.length + j = c + j + keys.length := by omega
  rw [h, Nat.add_mod_right]

theorem keyOutputs_one_cycle (keys : List String) :
    keyOutputs ⟨keys, 0⟩ keys.length = keys.map some := by
  rw [keyOutputs_eq_map_range]
  apply List.ext_getElem?
  intro i
  rw [List.getElem?_map, List.getElem?_map]
  by_cases h : i < keys.length
  · rw [List.getElem?_range h]
    simp [Nat.mod_eq_of_lt h, List.get?_eq_getElem?, List.getElem?_eq_getElem h]
  · rw [List.getElem?_eq_none (by simpa using not_lt.mp h),
      List.getElem?_eq_none (not_lt.mp h)]
    rfl

/-- C6: the credential rotator is round-robin with wrap-around: for every
non-empty pool and `k < m`, the `(k+1)`-th of `m` successive
`get_next_api_key()` calls returns the credential at index `k mod n` of the
pool (and does return a credential); pool `["A", "B"]` yields `A, B, A, B`
over four calls; and over `2n` calls each credential of a duplicate-free
pool is returned exactly twice. -/
theorem rotator_round_robin (keys : List String) (k m : Nat)
    (hne : keys ≠ []) (hkm : k < m) :
    (keyOutputs ⟨keys, 0⟩ m).get? k = some (keys.get? (k % keys.length)) ∧
    (keys.get? (k % keys.length)).isSome = true ∧
    keyOutputs ⟨["A", "B"], 0⟩ 4 = [some "A", some "B", some "A", some "B"] ∧
    (keys.Nodup → ∀ x ∈ keys,
      (keyOutputs ⟨keys, 0⟩ (2 * keys.length)).count (some x) = 2) := by
  have hpos : 0 < keys.length := List.length_pos.mpr hne
  have hmod : k % keys.length < keys.length := Nat.mod_lt k hpos
  refine ⟨?_, ?_, ?_, ?_⟩
  · rw [keyOutputs_eq_map_range, List.get?_eq_getElem?, List.getElem?_map,
      List.getElem?_range hkm]
    simp
  · simp [List.get?_eq_getElem?, List.getElem?_eq_getElem hmod]
  · rfl
  · intro hnd x hx
    have h2 : 2 * keys.length = keys.length + keys.length := by omega
    have hsh := keyOutputs_shift_cycle keys 0 keys.length
    rw [Nat.zero_add] at hsh
    rw [h2, keyOutputs_add keys keys.length keys.length 0, Nat.zero_add, hsh,
      keyOutputs_one_cycle, List.count_append, count_some_map,
      count_eq_one_of_nodup_mem keys x hnd hx]

theorem rotator_round_robin_witness :
    (keyOutputs ⟨["A", "B"], 0⟩ 4).get? 2 =
      some ((["A", "B"] : List String).get? (2 % (["A", "B"] : List String).length)) ∧
    ((["A", "B"] : List String).get? (2 % (["A", "B"] : List String).length)).isSome
      = true ∧
    keyOutputs ⟨["A", "B"], 0⟩ 4 = [some "A", some "B", some "A", some "B"] ∧
    (keyOutputs ⟨["A", "B"], 0⟩ (2 * (["A", "B"] : List String).length)).count
      (some "A") = 2 := by
  have h := rotator_round_robin ["A", "B"] 2 4 (by decide) (by decide)
  exact ⟨h.1, h.2.1, h.2.2.1, h.2.2.2 (by decide) "A" (by decide)⟩

theorem splitComma_ne_nil (l : List Char) : splitComma l ≠ [] := by
  induction l with
  | nil => simp [splitComma]
  | cons c rest _ =>
    simp only [splitComma]
    by_cases h : c = ','
    · simp [h]
    · simp only [if_neg h]
      cases hr : splitComma rest <;> simp

/-- C9: startup raises (`ValueError`) exactly when the `KLING_KEYS`
environment variable is absent or the empty string; whenever startup
succeeds the comma-split pool is non-empty, so every later
`get_next_api_key()` call returns a credential (never an exhausted-pool
outcome). -/
theorem startup_credential_validation (env : Option String) :
    ((startupKeys env).isOk = false ↔ env = none ∨ env = some "") ∧
    (∀ ks, startupKeys env = .ok ks → ks ≠ [] ∧
      ∀ cursor, ((get_next_api_key ⟨ks, cursor⟩).1).isSome = true) := by
  constructor
  · constructor
    · intro hmsg
      cases env with
      | none => exact Or.inl rfl
      | some s =>
        by_cases hs : s = ""
        · exact Or.inr (by rw [hs])
        · exfalso
          simp [startupKeys, hs, Except.isOk, Except.toBool] at hmsg
    · intro h
      rcases h with h | h <;> subst h <;> rfl
  · intro ks hks
    have hne : ks ≠ [] := by
      cases env with
      | none => exact absurd hks (by simp [startupKeys])
      | some s =>
        by_cases hs : s = ""
        · subst hs; exact absurd hks (by simp [startupKeys])
        · simp only [startupKeys, Option.getD, if_neg hs, Except.ok.injEq] at hks
          rw [← hks]
          simp only [ne_eq, List.map_eq_nil_iff]
          exact splitComma_ne_nil s.data
    refine ⟨hne, fun cursor => ?_⟩
    have hpos : 0 < ks.length := List.length_pos.mpr hne
    have hmod : cursor % ks.length < ks.length := Nat.mod_lt cursor hpos
    simp [get_next_api_key, List.get?_eq_getElem?, List.getElem?_eq_getElem hmod]

theorem startup_credential_validation_witness :
    (startupKeys none).isOk = false ∧
    (startupKeys (some "")).isOk = false ∧
    (["A", "B"] : List String) ≠ [] ∧
    ((get_next_api_key ⟨["A", "B"], 5⟩).1).isSome = true :=
  ⟨(startup_credential_validation none).1.mpr (Or.inl rfl),
   (startup_credential_validation (some "")).1.mpr (Or.inr rfl),
   ((startup_credential_validation (some "A,B")).2 ["A", "B"] rfl).1,
   ((startup_credential_validation (some "A,B")).2 ["A", "B"] rfl).2 5⟩

theorem poll_loop_first_terminal (pre rest : List PollResponse) (s : String)
    (hpre : ∀ p ∈ pre, ∃ st, p = .ok st ∧ nonTerminalStatus st = true)
    (hterm : nonTerminalStatus s = false) :
    poll_loop (pre ++ .ok s :: rest) = some (.ok s, pre.length + 1) := by
  induction pre with
  | nil => simp [poll_loop, hterm]
  | cons p pre ih =>
    obtain ⟨st, rfl, hst⟩ := hpre p (List.mem_cons_self p pre)
    have ih' := ih (fun q hq => hpre q (List.mem_cons_of_mem _ hq))
    rw [List.cons_append]
    simp [poll_loop, hst, ih']

/-- C2: with the local status initialised to `"pending"`, the poll loop makes
one sleep-and-query iteration per response and stops at the first response
whose status is outside `{pending, running, processing}` (after exactly
`pre.length + 1` queries when `pre` lists the non-terminal responses that
precede it); and when that first terminal status is not `"completed"`, the
job ends `"failed"` with the raw status string captured in the `error` field
(inside the message `Task failed with status: <status>`), with no further
poll or retry. -/
theorem poll_terminal_non_completed_fails (job_id tid s : String)
    (env : RemoteEnv) (pre rest : List PollResponse)
    (hpre : ∀ p ∈ pre, ∃ st, p = .ok st ∧ nonTerminalStatus st = true)
    (hterm : nonTerminalStatus s = false)
    (hnc : s ≠ "completed")
    (hs : env.submit = .ok tid)
    (hpolls : env.polls = pre ++ .ok s :: rest) :
    poll_loop env.polls = some (.ok s, pre.length + 1) ∧
    process_try_on job_id env [("status", "pending")] =
      some ⟨[("status", "failed"), ("error", "Task failed with status: " ++ s)],
        none, pre.length + 1⟩ ∧
    lookupKey [("status", "failed"),
        ("error", "Task failed with status: " ++ s)] "status" = some "failed" ∧
    lookupKey [("status", "failed"),
        ("error", "Task failed with status: " ++ s)] "error" =
      some ("Task failed with status: " ++ s) := by
  have hloop : poll_loop env.polls = some (.ok s, pre.length + 1) := by
    rw [hpolls]
    exact poll_loop_first_terminal pre rest s hpre hterm
  refine ⟨hloop, ?_, by simp [lookupKey], by simp [lookupKey]⟩
  simp [process_try_on, hs, hloop, hnc, dictUpdate, setKey]

theorem poll_terminal_non_completed_fails_witness :
    poll_loop [Except.ok "running", Except.ok "staged"] =
      some (.ok "staged", 2) ∧
    process_try_on "job-1"
        ⟨.ok "tid-7", [.ok "running", .ok "staged"], .ok "u", true⟩
        [("status", "pending")] =
      some ⟨[("status", "failed"), ("error", "Task failed with status: " ++ "staged")],
        none, 2⟩ ∧
    lookupKey [("status", "failed"),
        ("error", "Task failed with status: " ++ "staged")] "status" =
      some "failed" ∧
    lookupKey [("status", "failed"),
        ("error", "Task failed with status: " ++ "staged")] "error" =
      some ("Task failed with status: " ++ "staged") :=
  poll_terminal_non_completed_fails "job-1" "tid-7" "staged"
    ⟨.ok "tid-7", [.ok "running", .ok "staged"], .ok "u", true⟩
    [.ok "running"] []
    (by intro p hp; simp at hp; exact ⟨"running", hp, by decide⟩)
    (by decide) (by decide) rfl rfl

theorem static_path_ne_empty (job_id : String) :
    ("/static/" ++ job_id ++ ".png" : String) ≠ "" := by
  intro h
  have hd : ("/static/" ++ job_id ++ ".png" : String).data = [] := by rw [h]
  rw [String.data_append, String.data_append] at hd
  rcases List.append_eq_nil.mp hd with ⟨h1, _⟩
  rcases List.append_eq_nil.mp h1 with ⟨h2, _⟩
  exact absurd h2 (by decide)

/-- C1: when the remote submission succeeds, the poll loop ends with terminal
status `"completed"` and the output url is extractable, the job's final
status is `"completed"` exactly when the artifact download succeeds; a
failed download turns the job `"failed"` with the non-empty error
`"Failed to download the final image."`; and a successful job carries the
non-empty result reference `/static/<jobId>.png` (the `image_url` field)
while the fetched artifact is written to `static/<jobId>.png` under the
static directory. -/
theorem completed_iff_fetch_success (job_id tid url : String) (env : RemoteEnv)
    (n : Nat)
    (hs : env.submit = .ok tid)
    (hp : poll_loop env.polls = some (.ok "completed", n))
    (ho : env.output = .ok url) :
    ∃ pr, process_try_on job_id env [("status", "pending")] = some pr ∧
      (lookupKey pr.record "status" = some "completed" ↔ env.fetchOk = true) ∧
      (env.fetchOk = false →
        lookupKey pr.record "status" = some "failed" ∧
        lookupKey pr.record "error" = some "Failed to download the final image." ∧
        ("Failed to download the final image." : String) ≠ "") ∧
      (env.fetchOk = true →
        lookupKey pr.record "image_url" = some ("/static/" ++ job_id ++ ".png") ∧
        ("/static/" ++ job_id ++ ".png" : String) ≠ "" ∧
        pr.written = some ("static/" ++ job_id ++ ".png")) := by
  cases hf : env.fetchOk
  · refine ⟨⟨[("status", "failed"),
        ("error", "Failed to download the final image.")], none, n⟩, ?_, ?_, ?_, ?_⟩
    · simp [process_try_on, hs, hp, ho, hf, download_image, dictUpdate, setKey]
    · simp [lookupKey]
    · intro _
      refine ⟨by simp [lookupKey], by simp [lookupKey], by decide⟩
    · intro h
      cases h
  · refine ⟨⟨[("status", "completed"),
        ("resultText", "Image successfully generated and saved."),
        ("image_url", "/static/" ++ job_id ++ ".png")],
        some ("static/" ++ job_id ++ ".png"), n⟩, ?_, ?_, ?_, ?_⟩
    · simp [process_try_on, hs, hp, ho, hf, download_image, dictUpdate, setKey]
    · simp [lookupKey]
    · intro h
      cases h
    · intro _
      exact ⟨by simp [lookupKey], static_path_ne_empty job_id, rfl⟩

theorem completed_iff_fetch_success_witness :
    ∃ pr, process_try_on "job-1"
        ⟨.ok "tid-7", [.ok "completed"], .ok "http://remote/img.png", true⟩
        [("status", "pending")] = some pr ∧
      (lookupKey pr.record "status" = some "completed" ↔
        (RemoteEnv.fetchOk
          ⟨.ok "tid-7", [.ok "completed"], .ok "http://remote/img.png", true⟩) = true) ∧
      ((RemoteEnv.fetchOk
          ⟨.ok "tid-7", [.ok "completed"], .ok "http://remote/img.png", true⟩) = false →
        lookupKey pr.record "status" = some "failed" ∧
        lookupKey pr.record "error" = some "Failed to download the final image." ∧
        ("Failed to download the final image." : String) ≠ "") ∧
      ((RemoteEnv.fetchOk
          ⟨.ok "tid-7", [.ok "completed"], .ok "http://remote/img.png", true⟩) = true →
        lookupKey pr.record "image_url" = some ("/static/" ++ "job-1" ++ ".png") ∧
        ("/static/" ++ "job-1" ++ ".png" : String) ≠ "" ∧
        pr.written = some ("static/" ++ "job-1" ++ ".png")) :=
  completed_iff_fetch_success "job-1" "tid-7" "http://remote/img.png"
    ⟨.ok "tid-7", [.ok "completed"], .ok "http://remote/img.png", true⟩
    1 rfl (by simp [poll_loop, nonTerminalStatus]) rfl

/-- Every terminal record `process_try_on` can write: either a failed record
with some error string attached, or the completed record with its result
fields. -/
theorem process_record_shape (job_id : String) (env : RemoteEnv) (pr : ProcResult)
    (h : process_try_on job_id env [("status", "pending")] = some pr) :
    (∃ e, pr.record = [("status", "failed"), ("error", e)]) ∨
    pr.record = [("status", "completed"),
      ("resultText", "Image successfully generated and saved."),
      ("image_url", "/static/" ++ job_id ++ ".png")] := by
  rw [process_try_on] at h
  rcases hs : env.submit with e | tid <;> rw [hs] at h
  · simp only [Option.some.injEq] at h
    subst h
    exact Or.inl ⟨e, by simp [dictUpdate, setKey]⟩
  · rcases hp : poll_loop env.polls with _ | ⟨pe | ps, n⟩ <;> rw [hp] at h
    · exact absurd h (by simp)
    · simp only [Option.some.injEq] at h
      subst h
      exact Or.inl ⟨pe, by simp [dictUpdate, setKey]⟩
    · dsimp only at h
      by_cases hc : ps = "completed"
      · rw [if_pos hc] at h
        rcases ho : env.output with e | url <;> rw [ho] at h
        · simp only [Option.some.injEq] at h
          subst h
          exact Or.inl ⟨e, by simp [dictUpdate, setKey]⟩
        · cases hf : env.fetchOk <;>
            simp only [download_image, hf, Bool.false_eq_true, if_pos, if_neg,
              if_true, if_false, Option.some.injEq] at h <;> subst h
          · exact Or.inl ⟨"Failed to download the final image.",
              by simp [dictUpdate, setKey]⟩
          · exact Or.inr (by simp [dictUpdate, setKey])
      · rw [if_neg hc] at h
        simp only [Option.some.injEq] at h
        subst h
        exact Or.inl ⟨"Task failed with status: " ++ ps,
          by simp [dictUpdate, setKey]⟩

theorem failed_record_invariant_ok (e : String) :
    exactlyOne (inProgress [("status", "failed"), ("error", e)])
      (completedOk [("status", "failed"), ("error", e)])
      (failedOk [("status", "failed"), ("error", e)]) := by
  simp [exactlyOne, inProgress, completedOk, failedOk, lookupKey]

theorem completed_record_invariant_ok (u : String) :
    exactlyOne
      (inProgress [("status", "completed"),
        ("resultText", "Image successfully generated and saved."),
        ("image_url", u)])
      (completedOk [("status", "completed"),
        ("resultText", "Image successfully generated and saved."),
        ("image_url", u)])
      (failedOk [("status", "completed"),
        ("resultText", "Image successfully generated and saved."),
        ("image_url", u)]) := by
  simp [exactlyOne, inProgress, completedOk, failedOk, lookupKey]

/-- C4: every record state a job's `TASKS` entry goes through — the
`pending` record written at submission, the `processing` record written by
the background thread, and the terminal record — satisfies exactly one of:
in-progress status, `completed` with the result reference present, or
`failed` with an error string present; no terminal record ever lacks its
required terminal field. -/
theorem record_invariant (job_id : String) (env : RemoteEnv) (r : Dict)
    (hr : r ∈ job_states job_id env) :
    exactlyOne (inProgress r) (completedOk r) (failedOk r) := by
  simp only [job_states, List.mem_cons] at hr
  rcases hr with rfl | hr
  · simp [exactlyOne, inProgress, completedOk, failedOk, lookupKey]
  rcases hr with rfl | hr
  · simp [exactlyOne, inProgress, completedOk, failedOk, lookupKey, setKey]
  · rcases hp : process_try_on job_id env [("status", "pending")] with _ | pr <;>
      rw [hp] at hr
    · simp at hr
    · simp only [List.mem_singleton] at hr
      subst hr
      rcases process_record_shape job_id env pr hp with ⟨e, he⟩ | he <;> rw [he]
      · exact failed_record_invariant_ok e
      · exact completed_record_invariant_ok ("/static/" ++ job_id ++ ".png")

theorem record_invariant_witness :
    exactlyOne (inProgress [("status", "pending")])
      (completedOk [("status", "pending")])
      (failedOk [("status", "pending")]) :=
  record_invariant "job-1" c5Env [("status", "pending")]
    (by simp [job_states])

/-- C5 counterexample: for a job whose remote submission succeeds with
external task id `"ext-task-42"` and which runs to completion, the final job
record contains no `externalTaskId` (or `external_task_id`) attribute — the
task id value appears in no field of the record at all (the code keeps
`external_task_id` in a local variable only) — and the status query
therefore returns a view without it. -/
theorem external_task_id_not_recorded_cex :
    process_try_on "job-1" c5Env [("status", "pending")] =
      some ⟨[("status", "completed"),
             ("resultText", "Image successfully generated and saved."),
             ("image_url", "/static/job-1.png")],
            some "static/job-1.png", 1⟩ ∧
    lookupKey [("status", "completed"),
        ("resultText", "Image successfully generated and saved."),
        ("image_url", "/static/job-1.png")] "externalTaskId" = none ∧
    lookupKey [("status", "completed"),
        ("resultText", "Image successfully generated and saved."),
        ("image_url", "/static/job-1.png")] "external_task_id" = none ∧
    ("ext-task-42" ∉ List.map (fun kv => kv.2)
        [("status", "completed"),
         ("resultText", "Image successfully generated and saved."),
         ("image_url", "/static/job-1.png")]) ∧
    get_status_api
        [("job-1", [("status", "completed"),
          ("resultText", "Image successfully generated and saved."),
          ("image_url", "/static/job-1.png")])] "job-1" =
      (200, [("status", "completed"),
        ("resultText", "Image successfully generated and saved."),
        ("image_url", "/static/job-1.png")]) := by
  exact ⟨by decide, by decide, by decide, by decide, by decide⟩

theorem lookupKey_key_mem {α : Type} (l : List (String × α)) (k : String) (v : α)
    (h : lookupKey l k = some v) : k ∈ l.map Prod.fst := by
  induction l with
  | nil => simp [lookupKey] at h
  | cons kv rest ih =>
    obtain ⟨k', v'⟩ := kv
    rw [lookupKey] at h
    by_cases hk : k' = k
    · subst hk; simp
    · rw [if_neg hk] at h
      simp [ih h]

/-- Every reachable value of `TASKS[job_id]` is one of four concrete record
shapes. -/
theorem job_states_shape (job_id : String) (env : RemoteEnv) (r : Dict)
    (hr : r ∈ job_states job_id env) :
    r = [("status", "pending")] ∨ r = [("status", "processing")] ∨
    (∃ e, r = [("status", "failed"), ("error", e)]) ∨
    r = [("status", "completed"),
      ("resultText", "Image successfully generated and saved."),
      ("image_url", "/static/" ++ job_id ++ ".png")] := by
  simp only [job_states, List.mem_cons] at hr
  rcases hr with rfl | hr
  · exact Or.inl rfl
  rcases hr with rfl | hr
  · right; left; simp [setKey]
  · rcases hp : process_try_on job_id env [("status", "pending")] with _ | pr <;>
      rw [hp] at hr
    · simp at hr
    · simp only [List.mem_singleton] at hr
      subst hr
      rcases process_record_shape job_id env pr hp with ⟨e, he⟩ | he
      · exact Or.inr (Or.inr (Or.inl ⟨e, he⟩))
      · exact Or.inr (Or.inr (Or.inr he))

/-- C5 amended: the external task identifier returned by the remote
submission is used only locally (to build the poll URL); it is never written
into the Job Record: every populated key of every reachable record is one of
`status`, `resultText`, `image_url`, `error`, and in particular
`externalTaskId` is absent, so the status-query view never includes it. -/
theorem record_keys_closed (job_id : String) (env : RemoteEnv) (r : Dict)
    (hr : r ∈ job_states job_id env) (k v : String)
    (hkv : lookupKey r k = some v) :
    k ∈ (["status", "resultText", "image_url", "error"] : List String) ∧
    lookupKey r "externalTaskId" = none := by
  rcases job_states_shape job_id env r hr with rfl | rfl | ⟨e, rfl⟩ | rfl
  · have hm := lookupKey_key_mem _ _ _ hkv
    simp only [List.map_cons, List.map_nil, List.mem_singleton] at hm
    subst hm
    exact ⟨by decide, by simp [lookupKey]⟩
  · have hm := lookupKey_key_mem _ _ _ hkv
    simp only [List.map_cons, List.map_nil, List.mem_singleton] at hm
    subst hm
    exact ⟨by decide, by simp [lookupKey]⟩
  · have hm := lookupKey_key_mem _ _ _ hkv
    simp only [List.map_cons, List.map_nil, List.mem_cons,
      List.not_mem_nil, or_false] at hm
    rcases hm with rfl | rfl
    · exact ⟨by decide, by simp [lookupKey]⟩
    · exact ⟨by decide, by simp [lookupKey]⟩
  · have hm := lookupKey_key_mem _ _ _ hkv
    simp only [List.map_cons, List.map_nil, List.mem_cons,
      List.not_mem_nil, or_false] at hm
    rcases hm with rfl | rfl | rfl
    · exact ⟨by decide, by simp [lookupKey]⟩
    · exact ⟨by decide, by simp [lookupKey]⟩
    · exact ⟨by decide, by simp [lookupKey]⟩

theorem record_keys_closed_witness :
    ("status" : String) ∈
      (["status", "resultText", "image_url", "error"] : List String) ∧
    lookupKey [("status", "pending")] "externalTaskId" = none :=
  record_keys_closed "job-1" c5Env [("status", "pending")]
    (by simp [job_states]) "status" "pending" (by simp [lookupKey])

end VirtualTryOn
